import Mathlib

/-!
Verification of the PSS front-end authentication layer.

The definitions below are a shallow embedding of the TypeScript sources:
* `apiFetch` embeds src/Hook/api/fetchApi.ts (response handling);
* the OTP timer and modal embed src/Ui/Pages/Auth/OtpVerify/OTPVerifyModal.tsx;
* `ProtectedRoute`, `DashboardRedirect` and the route table embed
  src/context/Secure/ProctectedRoute.tsx, src/context/Secure/DashboradRedirect.tsx
  and src/App.tsx;
* the query-cache handlers embed the TanStack mutation hooks of
  src/Hook/Auth/useAuth.ts;
* `appLoadRequests` embeds the load-time current-user probing of the app as
  composed by its entry point (the gated useUser query of useAuth.ts).
-/

namespace PSS

/-! Embedding of src/Hook/api/fetchApi.ts.

A response body is abstracted by its parse outcome and its optional
string-valued message field: `body = none` models a body on which
response.json() rejects, `body = some b` a body that parses, with
`b.message` the value of its message field (absent when `none`).
-/

/-- Parsed JSON body, tracked only through its optional message field. -/
structure ErrorBody where
  message : Option String
deriving DecidableEq, Repr

/-- HTTP response as seen by apiFetch: a status code and a body. -/
structure HttpResponse where
  status : Nat
  body : Option ErrorBody
deriving DecidableEq, Repr

/-- Semantics of the fetch API field response.ok: status in the range 200-299. -/
def responseOk (status : Nat) : Bool := 200 ≤ status && status < 300

/-- Outcome of an apiFetch call: the promise resolves with a value
(`resolved none` models resolving with null) or rejects with an error message. -/
inductive ApiOutcome where
  | resolved (v : Option ErrorBody)
  | thrown (msg : String)
deriving DecidableEq, Repr

/-- Fallback error message built from the HTTP status, as in fetchApi.ts. -/
def httpStatusFallback (status : Nat) : String :=
  "HTTP error! status: " ++ toString status

/-- JavaScript truthiness of the expression m || fallback for a string-valued
field m: undefined and the empty string are falsy. -/
def jsStringOr (m : Option String) (fallback : String) : String :=
  match m with
  | some s => if s = "" then fallback else s
  | none => fallback

/-- Embedding of apiFetch from src/Hook/api/fetchApi.ts, lines 24-41: on a
non-ok response, a 401 on the user-probe endpoint resolves with null; any
other non-ok response throws, with errorData recovered from the body or the
parse-failure default, and the message computed by the JS expression
errorData.message || httpStatusFallback.  An ok response resolves with its
parsed body, or throws if the body does not parse. -/
def apiFetch (endpoint : String) (r : HttpResponse) : ApiOutcome :=
  if !responseOk r.status then
    if endpoint = "/api/auth/user" && r.status == 401 then
      ApiOutcome.resolved none
    else
      let errorData : ErrorBody := r.body.getD { message := some "Something went wrong" }
      ApiOutcome.thrown (jsStringOr errorData.message (httpStatusFallback r.status))
  else
    match r.body with
    | some b => ApiOutcome.resolved (some b)
    | none => ApiOutcome.thrown "Unexpected end of JSON input"

/-- Claim C1: every 401 response to the user-probe endpoint GET /api/auth/user
makes apiFetch resolve with null (no session) rather than throw, whatever the
response body is. -/
theorem apiFetch_user_probe_401_resolves_null (b : Option ErrorBody) :
    apiFetch "/api/auth/user" { status := 401, body := b } = ApiOutcome.resolved none := by
  cases b <;> rfl

/-- Claim C2, counterexample: the claim as stated says the thrown message is
the message field of the JSON body whenever the body parses, but on a 500
response whose body parses to a JSON object with an empty-string message
field, apiFetch throws the HTTP-status fallback, not that (empty) message
field: JS truthiness sends the empty string to the fallback branch. -/
theorem apiFetch_nonOk_message_counterexample :
    apiFetch "/api/data" { status := 500, body := some { message := some "" } }
        = ApiOutcome.thrown "HTTP error! status: 500"
      ∧ ApiOutcome.thrown "HTTP error! status: 500" ≠ ApiOutcome.thrown "" := by
  constructor
  · rfl
  · decide

/-- Claim C2, amended: for every non-2xx response other than a 401 on the
user-probe endpoint, apiFetch never resolves; it throws an error whose
message is the message field of the JSON body when the body parses and that
field is a non-empty string, the parse-failure default when the body does not
parse, and the HTTP-status fallback when the parsed body has a missing or
empty message field. -/
theorem apiFetch_nonOk_throws (endpoint : String) (r : HttpResponse)
    (hok : responseOk r.status = false)
    (hprobe : ¬(endpoint = "/api/auth/user" ∧ r.status = 401)) :
    (∀ v, apiFetch endpoint r ≠ ApiOutcome.resolved v)
      ∧ (r.body = none → apiFetch endpoint r = ApiOutcome.thrown "Something went wrong")
      ∧ (∀ b m, r.body = some b → b.message = some m → m ≠ "" →
          apiFetch endpoint r = ApiOutcome.thrown m)
      ∧ (∀ b, r.body = some b → (b.message = none ∨ b.message = some "") →
          apiFetch endpoint r = ApiOutcome.thrown (httpStatusFallback r.status)) := by
  have hcase : (endpoint = "/api/auth/user" && r.status == 401) = false := by
    apply Bool.eq_false_iff.mpr
    intro h
    apply hprobe
    simp only [Bool.and_eq_true, decide_eq_true_eq, beq_iff_eq] at h
    exact h
  have hfetch : apiFetch endpoint r
      = ApiOutcome.thrown
          (jsStringOr (r.body.getD { message := some "Something went wrong" }).message
            (httpStatusFallback r.status)) := by
    unfold apiFetch
    rw [hok, hcase]
    rfl
  refine ⟨?_, ?_, ?_, ?_⟩
  · intro v h
    rw [hfetch] at h
    exact ApiOutcome.noConfusion h
  · intro hb
    rw [hfetch, hb]
    rfl
  · intro b m hb hm hne
    rw [hfetch, hb]
    simp only [Option.getD_some]
    rw [hm]
    unfold jsStringOr
    simp only [if_neg hne]
  · intro b hb hm
    rw [hfetch, hb]
    simp only [Option.getD_some]
    rcases hm with h | h <;> rw [h] <;> rfl

/-- Claim C2, witness: the amended theorem applied to a 404 response with a
parsed body carrying the message field "Not found". -/
theorem apiFetch_nonOk_throws_witness :
    (∀ v, apiFetch "/api/data" { status := 404, body := some { message := some "Not found" } }
        ≠ ApiOutcome.resolved v)
      ∧ apiFetch "/api/data" { status := 404, body := some { message := some "Not found" } }
          = ApiOutcome.thrown "Not found" := by
  have h := apiFetch_nonOk_throws "/api/data"
    { status := 404, body := some { message := some "Not found" } }
    (by decide) (by simp)
  exact ⟨h.1, h.2.2.1 { message := some "Not found" } "Not found" rfl rfl (by decide)⟩

/-! Embedding of the OTP countdown of
src/Ui/Pages/Auth/OtpVerify/OTPVerifyModal.tsx (useOTPTimer, lines 86-147)
and of the simpler countdown of
src/Ui/Components/Auth/OtpVerify/OTPVerifyModal.tsx (lines 15-32). -/

/-- State held by useOTPTimer: the timeLeft and isExpired useState pair. -/
structure TimerState where
  timeLeft : Nat
  isExpired : Bool
deriving DecidableEq, Repr

/-- One one-second interval tick of useOTPTimer: the updater passed to
setTimeLeft sets isExpired and returns 0 when the previous value is at most 1,
and otherwise decrements by one leaving isExpired unchanged. -/
def tickTimer (s : TimerState) : TimerState :=
  if s.timeLeft ≤ 1 then { timeLeft := 0, isExpired := true }
  else { timeLeft := s.timeLeft - 1, isExpired := s.isExpired }

/-- Timer state of useOTPTimer started at initialSeconds n after k ticks. -/
def runTimer (n : Nat) : Nat → TimerState
  | 0 => { timeLeft := n, isExpired := false }
  | k + 1 => tickTimer (runTimer n k)

/-- One tick of the Components-variant countdown: setTimeLeft(prev - 1),
with no floor at zero. -/
def componentsTick (t : Int) : Int := t - 1

/-- Components-variant countdown started at n after k ticks. -/
def componentsRun (n : Int) : Nat → Int
  | 0 => n
  | k + 1 => componentsTick (componentsRun n k)

/-- Guard of the Components-variant expiry effect: timeLeft at most 0. -/
def componentsTimerExpired (t : Int) : Bool := t ≤ 0

/-- Value of the useOTPTimer state below the expiry tick. -/
theorem runTimer_lt (n k : Nat) (hk : k < n) :
    runTimer n k = { timeLeft := n - k, isExpired := false } := by
  induction k with
  | zero => rfl
  | succ k ih =>
      have hk' : k < n := Nat.lt_of_succ_lt hk
      have h2 : 2 ≤ n - k := by omega
      rw [runTimer, ih hk']
      unfold tickTimer
      simp only
      rw [if_neg (by omega)]
      have : n - k - 1 = n - (k + 1) := by omega
      rw [this]

/-- Value of the Components-variant countdown after k ticks. -/
theorem componentsRun_eq (n : Int) (k : Nat) : componentsRun n k = n - k := by
  induction k with
  | zero => simp [componentsRun]
  | succ k ih =>
      rw [componentsRun, ih]
      unfold componentsTick
      push_cast
      ring

/-- Claim C3: an OTP countdown started at N seconds, N positive, decrements
by exactly one per one-second tick and becomes Expired exactly on the Nth
tick: after k ticks with k below N it holds N - k seconds and is not expired,
and after N ticks it holds 0 seconds and is expired; likewise the
Components-variant countdown is not expired before its Nth tick and expired
on it. -/
theorem otp_timer_expires_exactly (n : Nat) (hn : 0 < n) :
    (∀ k, k < n → runTimer n k = { timeLeft := n - k, isExpired := false })
      ∧ runTimer n n = { timeLeft := 0, isExpired := true }
      ∧ (∀ k, k < n → componentsTimerExpired (componentsRun (n : Int) k) = false)
      ∧ componentsTimerExpired (componentsRun (n : Int) n) = true := by
  refine ⟨fun k hk => runTimer_lt n k hk, ?_, ?_, ?_⟩
  · obtain ⟨m, rfl⟩ : ∃ m, n = m + 1 := ⟨n - 1, by omega⟩
    rw [runTimer, runTimer_lt (m + 1) m (by omega)]
    unfold tickTimer
    simp only
    rw [if_pos (by omega)]
  · intro k hk
    rw [componentsRun_eq]
    unfold componentsTimerExpired
    simp only [decide_eq_false_iff_not, not_le]
    omega
  · rw [componentsRun_eq]
    unfold componentsTimerExpired
    simp only [decide_eq_true_eq]
    omega

/-- Claim C3, witness: the countdown started at 3 seconds, evaluated
concretely: not expired after 2 ticks, expired with 0 left after 3. -/
theorem otp_timer_expires_exactly_witness :
    (∀ k, k < 3 → runTimer 3 k = { timeLeft := 3 - k, isExpired := false })
      ∧ runTimer 3 3 = { timeLeft := 0, isExpired := true }
      ∧ (∀ k, k < 3 → componentsTimerExpired (componentsRun (3 : Int) k) = false)
      ∧ componentsTimerExpired (componentsRun (3 : Int) 3) = true :=
  otp_timer_expires_exactly 3 (by decide)

/-! Event-level model of the OTP modal of
src/Ui/Pages/Auth/OtpVerify/OTPVerifyModal.tsx: the useOTPTimer interval,
its clearInterval cleanup on teardown, and the expiry effect (lines 193-204)
that shows the expiry toast and then closes and navigates to /login. -/

/-- Observable state of one run of the OTP modal: the timer pair, whether the
component is mounted, whether the countdown interval is currently set, and
whether the expiry toast and the expiry-triggered navigation have fired. -/
structure ModalRun where
  timer : TimerState
  mounted : Bool
  intervalActive : Bool
  noticeShown : Bool
  navigated : Bool
deriving DecidableEq, Repr

/-- Expiry effect of the modal: when isExpired is set and the component is
mounted, the toast fires and the delayed onClose plus navigate("/login")
follow; otherwise nothing happens. -/
def expiryEffect (s : ModalRun) : ModalRun :=
  if s.timer.isExpired && s.mounted then
    { s with noticeShown := true, navigated := true }
  else s

/-- Modal state right after mount with initialSeconds n: the timer effect
sets isExpired at once when n is 0 and otherwise installs the interval. -/
def modalInit (n : Nat) : ModalRun :=
  if n = 0 then
    expiryEffect
      { timer := { timeLeft := 0, isExpired := true }, mounted := true,
        intervalActive := false, noticeShown := false, navigated := false }
  else
    { timer := { timeLeft := n, isExpired := false }, mounted := true,
      intervalActive := true, noticeShown := false, navigated := false }

/-- Events a mounted modal can receive: a one-second interval tick, or the
teardown of the component (modal closed). -/
inductive MEvent where
  | tick
  | close
deriving DecidableEq, Repr

/-- One step of the modal: teardown runs the effect cleanup, which clears the
interval (clearInterval in the useOTPTimer effect); a tick fires only while
the interval is set, advances the timer, reinstalls the interval only while
time remains, and runs the expiry effect. -/
def modalStep (s : ModalRun) (e : MEvent) : ModalRun :=
  match e with
  | MEvent.close =>
      if s.mounted then { s with mounted := false, intervalActive := false } else s
  | MEvent.tick =>
      if s.intervalActive then
        let t := tickTimer s.timer
        expiryEffect { s with timer := t, intervalActive := decide (0 < t.timeLeft) }
      else s

/-- Modal state after a list of events. -/
def modalRun (s : ModalRun) (es : List MEvent) : ModalRun := es.foldl modalStep s

/-- Invariant of every reachable modal state: the expiry toast and the
expiry navigation presuppose an expired timer, an expired timer has no time
left, and an unmounted component has no live interval. -/
def ModalInv (s : ModalRun) : Prop :=
  (s.noticeShown = true → s.timer.isExpired = true)
    ∧ (s.navigated = true → s.timer.isExpired = true)
    ∧ (s.timer.isExpired = true → s.timer.timeLeft = 0)
    ∧ (s.mounted = false → s.intervalActive = false)

theorem modalInv_init (n : Nat) : ModalInv (modalInit n) := by
  unfold modalInit expiryEffect
  by_cases h : n = 0 <;> simp [h, ModalInv]

theorem tickTimer_expired_timeLeft (s : TimerState)
    (hs : s.isExpired = true → s.timeLeft = 0) :
    (tickTimer s).isExpired = true → (tickTimer s).timeLeft = 0 := by
  unfold tickTimer
  by_cases h : s.timeLeft ≤ 1
  · simp [h]
  · simp only [if_neg h]
    intro he
    exact absurd (hs he) (by omega)

theorem tickTimer_stays_expired (s : TimerState) (hs : s.isExpired = true) :
    (tickTimer s).isExpired = true := by
  unfold tickTimer
  by_cases h : s.timeLeft ≤ 1 <;> simp [h, hs]

theorem modalInv_step (s : ModalRun) (e : MEvent) (hs : ModalInv s) :
    ModalInv (modalStep s e) := by
  obtain ⟨⟨tl, ex⟩, m, ia, ns, nv⟩ := s
  obtain ⟨h1, h2, h3, h4⟩ := hs
  simp only at h1 h2 h3 h4
  cases e with
  | close =>
      cases m <;> simp only [ModalInv, modalStep] <;> simp <;> tauto
  | tick =>
      cases ia with
      | false => simp only [ModalInv, modalStep] <;> simp <;> tauto
      | true =>
          cases m with
          | false =>
              have := h4 rfl
              simp at this
          | true =>
              by_cases htl : tl ≤ 1
              · simp [ModalInv, modalStep, tickTimer, expiryEffect, htl]
              · have htl2 : ¬tl ≤ 1 := htl
                cases ex with
                | true =>
                    have := h3 rfl
                    omega
                | false =>
                    simp only [ModalInv, modalStep, tickTimer, expiryEffect]
                    simp [htl2]
                    constructor
                    · cases hx : ns
                      · rfl
                      · exact absurd (h1 hx) (by decide)
                    · cases hx : nv
                      · rfl
                      · exact absurd (h2 hx) (by decide)

theorem modalInv_run (s : ModalRun) (es : List MEvent) (hs : ModalInv s) :
    ModalInv (modalRun s es) := by
  induction es generalizing s with
  | nil => exact hs
  | cons e es ih =>
      unfold modalRun at ih ⊢
      rw [List.foldl_cons]
      exact ih (modalStep s e) (modalInv_step s e hs)

theorem modalStep_closed_fix (s : ModalRun) (e : MEvent)
    (hm : s.mounted = false) (ha : s.intervalActive = false) :
    modalStep s e = s := by
  cases e with
  | close => unfold modalStep; rw [hm]; simp
  | tick => unfold modalStep; rw [ha]; simp

theorem modalRun_closed_fix (s : ModalRun) (es : List MEvent)
    (hm : s.mounted = false) (ha : s.intervalActive = false) :
    modalRun s es = s := by
  induction es with
  | nil => rfl
  | cons e es ih =>
      unfold modalRun at ih ⊢
      rw [List.foldl_cons, modalStep_closed_fix s e hm ha]
      exact ih

theorem modalStep_close_spec (s : ModalRun)
    (h4 : s.mounted = false → s.intervalActive = false) :
    (modalStep s MEvent.close).mounted = false
      ∧ (modalStep s MEvent.close).intervalActive = false
      ∧ (modalStep s MEvent.close).timer = s.timer
      ∧ (modalStep s MEvent.close).noticeShown = s.noticeShown
      ∧ (modalStep s MEvent.close).navigated = s.navigated := by
  obtain ⟨t, m, ia, ns, nv⟩ := s
  cases m with
  | false =>
      simp only [modalStep] at h4 ⊢
      simp at h4 ⊢
      exact h4
  | true => simp [modalStep]

/-- Claim C4: if the OTP modal is closed while the timer still has time
remaining, then whatever events are delivered afterwards, the timer never
transitions to expired, the expiry notice never fires, and no
expiry-triggered navigation happens: the close cleared the interval. -/
theorem otp_modal_close_cancels (n : Nat) (pre post : List MEvent)
    (hn : 0 < n)
    (hleft : 0 < (modalRun (modalInit n) pre).timer.timeLeft) :
    (modalRun (modalStep (modalRun (modalInit n) pre) MEvent.close) post).timer.isExpired = false
      ∧ (modalRun (modalStep (modalRun (modalInit n) pre) MEvent.close) post).noticeShown = false
      ∧ (modalRun (modalStep (modalRun (modalInit n) pre) MEvent.close) post).navigated = false := by
  have hinv : ModalInv (modalRun (modalInit n) pre) :=
    modalInv_run (modalInit n) pre (modalInv_init n)
  obtain ⟨h1, h2, h3, h4⟩ := hinv
  have hexp : (modalRun (modalInit n) pre).timer.isExpired = false := by
    cases hx : (modalRun (modalInit n) pre).timer.isExpired
    · rfl
    · have := h3 hx
      omega
  have hnot : (modalRun (modalInit n) pre).noticeShown = false := by
    cases hx : (modalRun (modalInit n) pre).noticeShown
    · rfl
    · rw [h1 hx] at hexp
      exact absurd hexp (by decide)
  have hnav : (modalRun (modalInit n) pre).navigated = false := by
    cases hx : (modalRun (modalInit n) pre).navigated
    · rfl
    · rw [h2 hx] at hexp
      exact absurd hexp (by decide)
  obtain ⟨hcm, hcia, hct, hcns, hcnv⟩ := modalStep_close_spec (modalRun (modalInit n) pre) h4
  rw [modalRun_closed_fix _ post hcm hcia, hct, hcns, hcnv]
  exact ⟨hexp, hnot, hnav⟩

/-- Claim C4, witness: starting at 5 seconds, ticking twice, closing, and
delivering three further ticks leaves the timer unexpired with no notice and
no navigation. -/
theorem otp_modal_close_cancels_witness :
    (modalRun (modalStep (modalRun (modalInit 5) [MEvent.tick, MEvent.tick]) MEvent.close)
        [MEvent.tick, MEvent.tick, MEvent.tick]).timer.isExpired = false
      ∧ (modalRun (modalStep (modalRun (modalInit 5) [MEvent.tick, MEvent.tick]) MEvent.close)
          [MEvent.tick, MEvent.tick, MEvent.tick]).noticeShown = false
      ∧ (modalRun (modalStep (modalRun (modalInit 5) [MEvent.tick, MEvent.tick]) MEvent.close)
          [MEvent.tick, MEvent.tick, MEvent.tick]).navigated = false :=
  otp_modal_close_cancels 5 [MEvent.tick, MEvent.tick] [MEvent.tick, MEvent.tick, MEvent.tick]
    (by decide) (by decide)

/-! Embedding of the route guards and the routing table:
src/context/Secure/ProctectedRoute.tsx, src/unnamed/part_010,
src/context/Secure/DashboradRedirect.tsx and the Routes element of
src/App.tsx. -/

/-- Roles of the User interface in useAuth.ts. -/
inductive Role where
  | user
  | admin
  | analyst
deriving DecidableEq, Repr

/-- User record of the User interface in useAuth.ts (createdAt and updatedAt
timestamps abstracted away). -/
structure User where
  _id : String
  username : String
  email : String
  role : Role
  isVerified : Bool
deriving DecidableEq, Repr

/-- Rendering outcome of a guard component: null while loading, a Navigate
redirect, or the protected Outlet. -/
inductive GuardResult where
  | loadingNull
  | navigate (dest : String)
  | outlet
deriving DecidableEq, Repr

/-- Embedding of ProtectedRoute from src/context/Secure/ProctectedRoute.tsx:
null while loading; redirect to "/" when not logged in; redirect to "/" when
the session role neither matches the required role nor is admin; otherwise
the Outlet. -/
def ProtectedRoute (role : Role) (isLoading : Bool) (user : Option User) : GuardResult :=
  if isLoading then GuardResult.loadingNull
  else
    match user with
    | none => GuardResult.navigate "/"
    | some u =>
        if u.role ≠ role ∧ u.role ≠ Role.admin then GuardResult.navigate "/"
        else GuardResult.outlet

/-- Embedding of the ProtectedRoute variant of src/unnamed/part_010, which
reads the auth context: null while loading; redirect to "/" when not logged
in; redirect to "/dashboard" when the optional-chained session role neither
matches the required role nor is admin; otherwise the Outlet. -/
def ProtectedRouteAlt (isLoggedIn isLoading : Bool) (user : Option User) (role : Role) :
    GuardResult :=
  if isLoading then GuardResult.loadingNull
  else if isLoggedIn = false then GuardResult.navigate "/"
  else
    let userRole : Option Role := user.map (fun u => u.role)
    if userRole ≠ some role ∧ userRole ≠ some Role.admin then GuardResult.navigate "/dashboard"
    else GuardResult.outlet

/-- Embedding of DashboardRedirect from
src/context/Secure/DashboradRedirect.tsx: admin sessions go to the admin
dashboard, user and analyst sessions to the user dashboard, and anyone else
to the login page. -/
def DashboardRedirect (isLoading : Bool) (user : Option User) : GuardResult :=
  if isLoading then GuardResult.loadingNull
  else
    let userRole : Option Role := user.map (fun u => u.role)
    if userRole = some Role.admin then GuardResult.navigate "/dashboard/auth/admin"
    else if userRole = some Role.user ∨ userRole = some Role.analyst then
      GuardResult.navigate "/dashboard/auth/user"
    else GuardResult.navigate "/"

/-- Pages the router can settle on (child routes of the dashboards
abstracted into their dashboard page). -/
inductive Page where
  | login
  | register
  | forgetPassword
  | resetPassword
  | analystDashboard
  | adminDashboard
  | loadingNull
deriving DecidableEq, Repr

/-- Result of matching one path against the Routes table. -/
inductive RouteOutcome where
  | page (p : Page)
  | nav (dest : String)
deriving DecidableEq, Repr

/-- Embedding of the Routes element of src/App.tsx for a settled session
(query no longer loading): the public entry "/" renders Login when logged
out and forwards to /dashboard otherwise; /dashboard runs DashboardRedirect;
the two dashboard paths run ProtectedRoute with the corresponding required
role; everything else falls through to the wildcard redirect. -/
def routeFor (user : Option User) (path : String) : RouteOutcome :=
  let isLoggedIn := user.isSome
  if path = "/" then
    if isLoggedIn = false then RouteOutcome.page Page.login else RouteOutcome.nav "/dashboard"
  else if path = "/register" then RouteOutcome.page Page.register
  else if path = "/forget-password" then RouteOutcome.page Page.forgetPassword
  else if path = "/reset-password" then RouteOutcome.page Page.resetPassword
  else if path = "/dashboard" then
    match DashboardRedirect false user with
    | GuardResult.navigate t => RouteOutcome.nav t
    | _ => RouteOutcome.page Page.loadingNull
  else if path = "/dashboard/auth/user" then
    match ProtectedRoute Role.user false user with
    | GuardResult.outlet => RouteOutcome.page Page.analystDashboard
    | GuardResult.navigate t => RouteOutcome.nav t
    | GuardResult.loadingNull => RouteOutcome.page Page.loadingNull
  else if path = "/dashboard/auth/admin" then
    match ProtectedRoute Role.admin false user with
    | GuardResult.outlet => RouteOutcome.page Page.adminDashboard
    | GuardResult.navigate t => RouteOutcome.nav t
    | GuardResult.loadingNull => RouteOutcome.page Page.loadingNull
  else if isLoggedIn then RouteOutcome.nav "/dashboard/auth/user"
  else RouteOutcome.nav "/"

/-- Follow client-side navigations from a path until a page renders, with
fuel bounding the number of redirects. -/
def resolve (user : Option User) : Nat → String → Option Page
  | 0, _ => none
  | fuel + 1, path =>
      match routeFor user path with
      | RouteOutcome.page p => some p
      | RouteOutcome.nav t => resolve user fuel t

/-- Modelled from the spec: the spec sentence on the route guard speaks of a
redirect to a role-appropriate dashboard; this names the dashboard path of
each role, matching the destinations DashboardRedirect uses. -/
def dashboardPathFor : Role → String
  | Role.admin => "/dashboard/auth/admin"
  | Role.user => "/dashboard/auth/user"
  | Role.analyst => "/dashboard/auth/user"

/-- Sample settled session with role user, for concrete evaluation. -/
def aliceUser : User :=
  { _id := "u1", username := "alice", email := "alice@example.com",
    role := Role.user, isVerified := true }

/-- Sample settled session with role admin, for concrete evaluation. -/
def adaAdmin : User :=
  { _id := "a1", username := "ada", email := "ada@example.com",
    role := Role.admin, isVerified := true }

/-- Sample settled session with role analyst, for concrete evaluation. -/
def anaAnalyst : User :=
  { _id := "n1", username := "ana", email := "ana@example.com",
    role := Role.analyst, isVerified := true }

/-- An arbitrary session with role analyst. -/
def analystUser (i un em : String) (v : Bool) : User :=
  { _id := i, username := un, email := em, role := Role.analyst, isVerified := v }

/-- Redirect loop of an analyst session: DashboardRedirect sends analysts to
the user dashboard, but the guard there requires role user and bounces
analysts back to "/", so from any path of the cycle the resolution never
settles on a page, for any amount of fuel. -/
theorem analyst_resolve_loop (i un em : String) (v : Bool) :
    ∀ fuel : Nat,
      resolve (some (analystUser i un em v)) fuel "/" = none
        ∧ resolve (some (analystUser i un em v)) fuel "/dashboard" = none
        ∧ resolve (some (analystUser i un em v)) fuel "/dashboard/auth/user" = none
        ∧ resolve (some (analystUser i un em v)) fuel "/dashboard/auth/admin" = none := by
  intro fuel
  induction fuel with
  | zero => exact ⟨rfl, rfl, rfl, rfl⟩
  | succ k ih =>
      obtain ⟨h1, h2, h3, h4⟩ := ih
      exact ⟨h2, h3, h1, h1⟩

/-- Claim C5, counterexample: the guard requiring admin, given a settled
session with role user, redirects to "/", the public entry route — and "/"
is not the role-appropriate dashboard path of any role, so the guard does
not redirect to a role-appropriate dashboard. -/
theorem guard_mismatch_target_counterexample :
    ProtectedRoute Role.admin false (some aliceUser) = GuardResult.navigate "/"
      ∧ (∀ r : Role, dashboardPathFor r ≠ "/") := by
  constructor
  · rfl
  · intro r
    cases r <;> decide

/-- Claim C5, amended: for every settled render of a protected route: with
no session the guard redirects to the public entry route "/", which renders
the login page; with a session whose role neither matches the required role
nor is admin, the guard also redirects to "/" rather than directly to a
dashboard; for a user-role session that chain continues through /dashboard
and ends at its role-appropriate dashboard — in particular a guard requiring
admin sends a user-role session from the admin path to the user dashboard —
while an analyst session bounced off the admin path loops forever between
"/", /dashboard and the user-dashboard guard and never settles on any page;
with a matching role the protected content is rendered. -/
theorem guard_redirects_and_resolution (u : User) :
    (∀ r : Role, ProtectedRoute r false none = GuardResult.navigate "/")
      ∧ resolve none 1 "/" = some Page.login
      ∧ (u.role ≠ Role.admin →
          ProtectedRoute Role.admin false (some u) = GuardResult.navigate "/")
      ∧ (u.role = Role.user →
          resolve (some u) 4 "/dashboard/auth/admin" = some Page.analystDashboard
            ∧ ProtectedRoute Role.user false (some u) = GuardResult.outlet)
      ∧ (u.role = Role.analyst →
          ∀ fuel, resolve (some u) fuel "/dashboard/auth/admin" = none) := by
  obtain ⟨i, un, em, rl, v⟩ := u
  refine ⟨?_, rfl, ?_, ?_, ?_⟩
  · intro r
    cases r <;> rfl
  · intro hne
    cases rl with
    | user => rfl
    | analyst => rfl
    | admin => exact absurd rfl hne
  · intro hrole
    simp only at hrole
    subst hrole
    exact ⟨rfl, rfl⟩
  · intro hrole
    simp only at hrole
    subst hrole
    intro fuel
    exact (analyst_resolve_loop i un em v fuel).2.2.2

/-- Claim C5, witness: the amended theorem evaluated on the concrete
user-role session aliceUser and the concrete analyst session anaAnalyst,
with 50 units of redirect fuel for the analyst loop. -/
theorem guard_redirects_and_resolution_witness :
    ProtectedRoute Role.admin false (some aliceUser) = GuardResult.navigate "/"
      ∧ resolve (some aliceUser) 4 "/dashboard/auth/admin" = some Page.analystDashboard
      ∧ ProtectedRoute Role.user false (some aliceUser) = GuardResult.outlet
      ∧ resolve none 1 "/" = some Page.login
      ∧ resolve (some anaAnalyst) 50 "/dashboard/auth/admin" = none :=
  ⟨(guard_redirects_and_resolution aliceUser).2.2.1 (by decide),
   ((guard_redirects_and_resolution aliceUser).2.2.2.1 rfl).1,
   ((guard_redirects_and_resolution aliceUser).2.2.2.1 rfl).2,
   (guard_redirects_and_resolution aliceUser).2.1,
   (guard_redirects_and_resolution anaAnalyst).2.2.2.2 rfl 50⟩

/-- Claim C6: a settled session whose role is admin is never redirected by
either route guard: whatever required role the guard was given, it renders
the protected outlet. -/
theorem admin_session_never_redirected (u : User) (hrole : u.role = Role.admin) :
    ∀ r : Role, ProtectedRoute r false (some u) = GuardResult.outlet
      ∧ ProtectedRouteAlt true false (some u) r = GuardResult.outlet := by
  obtain ⟨i, un, em, rl, v⟩ := u
  simp only at hrole
  subst hrole
  intro r
  cases r <;> exact ⟨rfl, rfl⟩

/-- Claim C6, witness: the admin session adaAdmin passes both guards for
every required role, evaluated concretely. -/
theorem admin_session_never_redirected_witness :
    (ProtectedRoute Role.user false (some adaAdmin) = GuardResult.outlet
        ∧ ProtectedRouteAlt true false (some adaAdmin) Role.user = GuardResult.outlet)
      ∧ (ProtectedRoute Role.analyst false (some adaAdmin) = GuardResult.outlet
        ∧ ProtectedRouteAlt true false (some adaAdmin) Role.analyst = GuardResult.outlet) :=
  ⟨admin_session_never_redirected adaAdmin rfl Role.user,
   admin_session_never_redirected adaAdmin rfl Role.analyst⟩

/-! Embedding of the TanStack query-cache effects of the auth mutation hooks
in src/Hook/Auth/useAuth.ts: the authKeys factory, the user query cache
entry, and the onSuccess / onError handlers of useLogin, useLogout and
useUpdateProfile. -/

/-- Key of the whole auth group: authKeys.all. -/
def authKeysAll : List String := ["auth"]

/-- Key of the current-user query: authKeys.user(). -/
def authKeysUser : List String := ["auth", "user"]

/-- Cache state of the user query entry: its cached data and whether the
entry has been invalidated (marked stale, triggering a refetch). -/
structure QueryCacheState where
  userData : Option User
  userInvalidated : Bool
deriving DecidableEq, Repr

/-- queryClient.invalidateQueries with a key filter: TanStack Query matches
every query whose key extends the filter, so the user entry is invalidated
exactly when the filter is a prefix of its key. -/
def invalidateQueries (filter : List String) (q : QueryCacheState) : QueryCacheState :=
  if filter.isPrefixOf authKeysUser then { q with userInvalidated := true } else q

/-- queryClient.setQueryData on a key: replaces the cached data of the
exactly matching entry. -/
def setQueryData (key : List String) (d : Option User) (q : QueryCacheState) : QueryCacheState :=
  if key = authKeysUser then { q with userData := d } else q

/-- Client-side auth state: the query cache and the isLoggedIn localStorage
flag. -/
structure ClientState where
  cache : QueryCacheState
  isLoggedInFlag : Bool
deriving DecidableEq, Repr

/-- onSuccess handler of useLogin: sets the localStorage flag and
invalidates the user query. -/
def loginOnSuccess (s : ClientState) : ClientState :=
  { cache := invalidateQueries authKeysUser s.cache, isLoggedInFlag := true }

/-- onSuccess handler of useLogout: removes the localStorage flag, sets the
cached user to null, and invalidates all auth-related queries. -/
def logoutOnSuccess (s : ClientState) : ClientState :=
  { cache := invalidateQueries authKeysAll (setQueryData authKeysUser none s.cache),
    isLoggedInFlag := false }

/-- onError handler of useLogout: even on a failed request, removes the
localStorage flag and sets the cached user to null. -/
def logoutOnError (s : ClientState) : ClientState :=
  { cache := setQueryData authKeysUser none s.cache, isLoggedInFlag := false }

/-- onSuccess handler of useUpdateProfile: writes the updated user into the
cache and invalidates the user query. -/
def updateProfileOnSuccess (u : User) (s : ClientState) : ClientState :=
  { s with cache := invalidateQueries authKeysUser (setQueryData authKeysUser (some u) s.cache) }

/-- Settling of one run of the logout mutation: a resolving apiFetch call
runs onSuccess, a throwing one (non-2xx response or network failure) runs
onError; mutations are not retried. -/
def logoutSettle (outcome : ApiOutcome) (s : ClientState) : ClientState :=
  match outcome with
  | ApiOutcome.resolved _ => logoutOnSuccess s
  | ApiOutcome.thrown _ => logoutOnError s

/-- Claim C7: after every successful login, logout, or profile-update
mutation the user query entry is invalidated — login and profile update
invalidate its key directly, logout invalidates the auth prefix, which
covers the user key — and logout additionally clears the cached user to
null, so the next probe-dependent render sees the logged-out state. -/
theorem mutations_invalidate_user_query (s : ClientState) (u : User) :
    (loginOnSuccess s).cache.userInvalidated = true
      ∧ (logoutOnSuccess s).cache.userInvalidated = true
      ∧ (logoutOnSuccess s).cache.userData = none
      ∧ (updateProfileOnSuccess u s).cache.userInvalidated = true := by
  refine ⟨rfl, rfl, rfl, rfl⟩

/-- Claim C9: every run of the logout mutation clears the client-side
session state: whether the request resolved or threw (request failure or
non-2xx), the isLoggedIn flag ends removed and the cached user ends null —
in particular for the outcome apiFetch produces on any HTTP response to the
logout endpoint. -/
theorem logout_always_clears_session (outcome : ApiOutcome) (s : ClientState) :
    ((logoutSettle outcome s).isLoggedInFlag = false
        ∧ (logoutSettle outcome s).cache.userData = none)
      ∧ ∀ (r : HttpResponse),
          (logoutSettle (apiFetch "/api/auth/logout" r) s).isLoggedInFlag = false
            ∧ (logoutSettle (apiFetch "/api/auth/logout" r) s).cache.userData = none := by
  constructor
  · cases outcome <;> exact ⟨rfl, rfl⟩
  · intro r
    cases h : apiFetch "/api/auth/logout" r <;> simp [logoutSettle] <;> exact ⟨rfl, rfl⟩

/-! Embedding of the load-time session probing of the running app.  The
entry point that provides the QueryClient (main.tsx with QueryClientProvider)
renders App without AuthProvider, so the mount probe of src/context/auth.tsx
never runs together with the app's query hooks; the only current-user
request on app load is the useUser query of useAuth.ts, and that query is
gated by its enabled option, the double-negated isLoggedIn localStorage
flag.  apiFetch always sends credentials: "include". -/

/-- An HTTP request as issued by the client. -/
structure Request where
  endpoint : String
  method : String
  credentialsInclude : Bool
deriving DecidableEq, Repr

/-- The request the useUser queryFn makes through apiFetch. -/
def userQueryRequest : Request :=
  { endpoint := "/api/auth/user", method := "GET", credentialsInclude := true }

/-- enabled option of the useUser query: the double-negated localStorage
isLoggedIn flag. -/
def useUserEnabled (isLoggedInFlag : Bool) : Bool := isLoggedInFlag

/-- Current-user requests issued on app load as a function of the stored
client state: the useUser query fires only when enabled. -/
def appLoadRequests (isLoggedInFlag : Bool) : List Request :=
  if useUserEnabled isLoggedInFlag then [userQueryRequest] else []

/-- Claim C8, counterexample: a fresh client, holding no isLoggedIn flag in
localStorage, issues no current-user request at all on app load — the
useUser query is disabled — so the probe is not issued for every client
unconditionally. -/
theorem app_load_fresh_client_no_probe_counterexample :
    appLoadRequests false = [] ∧ ∀ req : Request, req ∉ appLoadRequests false := by
  refine ⟨rfl, ?_⟩
  intro req h
  simp [appLoadRequests, useUserEnabled] at h

/-- Claim C8, amended: on app load a credential-bearing GET request to the
current-user endpoint is issued exactly when the isLoggedIn localStorage
flag is present: a returning client with the flag probes /api/auth/user with
credentials included, and a fresh client without the flag issues no probe. -/
theorem app_load_probe_gated (flag : Bool) :
    (flag = true →
        appLoadRequests flag = [userQueryRequest]
          ∧ userQueryRequest.credentialsInclude = true
          ∧ userQueryRequest.endpoint = "/api/auth/user"
          ∧ userQueryRequest.method = "GET")
      ∧ (flag = false → appLoadRequests flag = []) := by
  constructor
  · intro h
    subst h
    exact ⟨rfl, rfl, rfl, rfl⟩
  · intro h
    subst h
    rfl

/-- Claim C8, witness: the amended theorem evaluated at both flag values. -/
theorem app_load_probe_gated_witness :
    (appLoadRequests true = [userQueryRequest]
        ∧ userQueryRequest.credentialsInclude = true
        ∧ userQueryRequest.endpoint = "/api/auth/user"
        ∧ userQueryRequest.method = "GET")
      ∧ appLoadRequests false = [] :=
  ⟨(app_load_probe_gated true).1 rfl, (app_load_probe_gated false).2 rfl⟩

/-! Embedding of the OTP submission handler and submit control of
src/Ui/Pages/Auth/OtpVerify/OTPVerifyModal.tsx (handleVerify and the submit
Button's disabled condition). -/

/-- Action handleVerify takes on a form submission: an inline field error
for an absent or non-6-digit code, the expiry toast, or the verifyOtp
mutation — the only branch that issues a network request. -/
inductive VerifyAction where
  | errorEnterCode
  | errorLength
  | toastExpired
  | mutateVerify (email otp : String)
deriving DecidableEq, Repr

/-- Embedding of handleVerify: input validation runs first (empty code, then
length), then the expiry check returns early with the expiry toast, and only
after all three does the verifyOtp mutation run. -/
def handleVerify (email otp : String) (isExpired : Bool) : VerifyAction :=
  if otp = "" then VerifyAction.errorEnterCode
  else if otp.length ≠ 6 then VerifyAction.errorLength
  else if isExpired then VerifyAction.toastExpired
  else VerifyAction.mutateVerify email otp

/-- Whether a VerifyAction issues the verifyOtp network request. -/
def issuesVerifyRequest : VerifyAction → Bool
  | VerifyAction.mutateVerify _ _ => true
  | _ => false

/-- disabled condition of the submit button: a pending mutation, an expired
timer, or a code of the wrong length. -/
def verifySubmitDisabled (isPending isExpired : Bool) (otp : String) : Bool :=
  isPending || isExpired || otp.length != 6

/-- Claim C10: once the timer is expired, a form submission never issues the
verifyOtp network request; a submission whose code passed input validation
is rejected with the expiry toast; and the submit control is disabled. -/
theorem expired_submission_never_requests (email otp : String) (isPending : Bool) :
    issuesVerifyRequest (handleVerify email otp true) = false
      ∧ (otp.length = 6 → handleVerify email otp true = VerifyAction.toastExpired)
      ∧ verifySubmitDisabled isPending true otp = true := by
  refine ⟨?_, ?_, ?_⟩
  · unfold handleVerify
    by_cases h0 : otp = ""
    · simp [h0, issuesVerifyRequest]
    · by_cases h6 : otp.length = 6
      · simp [h0, h6, issuesVerifyRequest]
      · simp [h0, h6, issuesVerifyRequest]
  · intro h6
    have hne : otp ≠ "" := by
      intro h
      rw [h] at h6
      simp at h6
    unfold handleVerify
    simp [hne, h6]
  · unfold verifySubmitDisabled
    simp

/-- Claim C10, witness: with the six-digit code 123456 and an expired timer,
no request is issued, the handler answers with the expiry toast, and the
submit button is disabled. -/
theorem expired_submission_never_requests_witness :
    issuesVerifyRequest (handleVerify "jo@example.com" "123456" true) = false
      ∧ handleVerify "jo@example.com" "123456" true = VerifyAction.toastExpired
      ∧ verifySubmitDisabled false true "123456" = true :=
  ⟨(expired_submission_never_requests "jo@example.com" "123456" false).1,
   (expired_submission_never_requests "jo@example.com" "123456" false).2.1 (by decide),
   (expired_submission_never_requests "jo@example.com" "123456" false).2.2⟩

end PSS
